import Mathlib

/-!
Shallow embedding of the Energinet Data Service MCP server (`server.py`).

The server consists of a request executor (`make_api_request`), a record
formatter (`format_records`) and six tool entry points.  Each tool splits
into a pure query-parameter builder (`*_params`) and a pure response
renderer (`*_render` / `*_body`); the network call that connects them is
modelled by the abstract outcome type `HttpOutcome`.

Modelling conventions:
* Record scalars are text, numbers or null (spec, data model: "scalar
  value (text, number, or absent)").  Numbers are modelled as exact
  fractions (`PyNum`, an integer numerator over a positive denominator,
  kept unnormalized so that every operation is plain integer
  arithmetic); a Python float literal is embedded as the IEEE-754 double
  nearest the literal, written as its exact integer ratio.
* Python `f"{x:.2f}"` formatting of a float is correctly rounded decimal
  conversion of the binary value with ties to even; `formatFixed`
  implements exactly that on the embedded rational.
* A Python execution path that raises an exception inside a tool body is
  modelled as `none`; a returned string is `some`.
* Response values follow the upstream contract (spec, external
  interfaces): a response mapping holds scalars, a list of row records,
  or (for the metadata endpoint) a nested mapping whose `columns` entry
  is a list of row records.  Off-contract shapes that would make the
  Python body raise are modelled as `none`.
-/

set_option maxRecDepth 8192

namespace Energinet

/-- An exact number: the fraction `num / den` with `den` positive.  The
fraction is not normalized, so addition and scaling stay within integer
arithmetic.  An `int` is `⟨n, 1⟩`; a float is the exact ratio of its
IEEE-754 double value. -/
structure PyNum where
  num : ℤ
  den : ℕ
deriving DecidableEq

/-- The number zero. -/
def PyNum.zero : PyNum := ⟨0, 1⟩

/-- An integer as a number. -/
def PyNum.int (n : ℤ) : PyNum := ⟨n, 1⟩

/-- Exact addition of fractions (no normalization). -/
def PyNum.add (a b : PyNum) : PyNum :=
  ⟨a.num * b.den + b.num * a.den, a.den * b.den⟩

/-- A scalar value inside a row record: text, number, or Python `None`. -/
inductive PyVal where
  | vNone : PyVal
  | vStr : String → PyVal
  | vNum : PyNum → PyVal
deriving DecidableEq

/-- A row record: an ordered mapping from column name to scalar value
(Python `dict`, which preserves insertion order). -/
abbrev Record := List (String × PyVal)

/-- Python truthiness of a scalar: `None`, `""` and `0` are falsy. -/
def pyTruthy : PyVal → Bool
  | .vNone => false
  | .vStr s => !(s == "")
  | .vNum q => !(q.num == 0)

/-- Python truthiness of a `str | None` argument: `None` and `""` are falsy. -/
def pyTruthyOptStr : Option String → Bool
  | none => false
  | some s => !(s == "")

/-- `record.get(key, default)` on a row record. -/
def pyGetD (record : Record) (key : String) (default : PyVal) : PyVal :=
  (List.lookup key record).getD default

/-- Decimal digits of a number, left padded with zeros to the given width
(used for the fractional part of fixed-point formatting). -/
def padZeros (s : String) (width : ℕ) : String :=
  String.mk (List.replicate (width - s.length) '0') ++ s

/-- Round the fraction to the nearest integer, ties to even: the rounding
used by IEEE-754 and hence by CPython when formatting a float.  `f` is
the floor (`Int.fdiv` rounds toward negative infinity) and `r2` twice the
nonnegative remainder, compared against the denominator. -/
def roundHalfEven (q : PyNum) : ℤ :=
  let b : ℤ := (q.den : ℤ)
  let f := Int.fdiv q.num b
  let r2 := 2 * (q.num - f * b)
  if r2 < b then f
  else if b < r2 then f + 1
  else if Int.emod f 2 = 0 then f else f + 1

/-- Python `f"{x:.prec f}"` on the exact value of the float `x`:
correctly rounded fixed-point decimal rendering, ties to even. -/
def formatFixed (q : PyNum) (prec : ℕ) : String :=
  let n := roundHalfEven ⟨q.num * (((10 : ℕ) ^ prec : ℕ) : ℤ), q.den⟩
  let sign := if n < 0 then "-" else ""
  let m := n.natAbs
  let base := (10 : ℕ) ^ prec
  if prec = 0 then sign ++ toString m
  else sign ++ toString (m / base) ++ "." ++ padZeros (toString (m % base)) prec

/-- Python `str()` of a number.  Integral values match Python `str` of an
`int`; the shortest-repr rendering of a non-integral float is not needed
by anything below and is modelled as an exact fraction. -/
def numStr (q : PyNum) : String :=
  if q.den = 1 then toString q.num
  else toString q.num ++ "/" ++ toString q.den

/-- Python `str()` of a record scalar, as interpolated by an f-string. -/
def pyStr : PyVal → String
  | .vNone => "None"
  | .vStr s => s
  | .vNum q => numStr q

/-- Python `repr()` of a record scalar (quotes around text). -/
def pyReprScalar : PyVal → String
  | .vNone => "None"
  | .vStr s => "\x27" ++ s ++ "\x27"
  | .vNum q => numStr q

/-- Python `repr()` of a row record (a `dict` literal). -/
def recordRepr (r : Record) : String :=
  "\x7b" ++ String.intercalate ", "
    (r.map (fun kv => "\x27" ++ kv.1 ++ "\x27: " ++ pyReprScalar kv.2)) ++ "\x7d"

/-- Python `repr()` of a list of row records. -/
def recordsRepr (rs : List Record) : String :=
  "[" ++ String.intercalate ", " (rs.map recordRepr) ++ "]"

/-- A value inside the metadata `result` mapping: a scalar, or the
`columns` list of row records. -/
inductive MVal where
  | mScalar : PyVal → MVal
  | mRecords : List Record → MVal
deriving DecidableEq

/-- Python truthiness of a metadata value. -/
def mTruthy : MVal → Bool
  | .mScalar v => pyTruthy v
  | .mRecords rs => !rs.isEmpty

/-- Display of a metadata value inside an f-string. -/
def mStr : MVal → String
  | .mScalar v => pyStr v
  | .mRecords rs => recordsRepr rs

/-- A top-level value of the decoded JSON response mapping: a scalar
(`error`, `total`), a list of row records (`result`, `records`), or the
metadata `result` mapping. -/
inductive DVal where
  | dScalar : PyVal → DVal
  | dRecords : List Record → DVal
  | dMeta : List (String × MVal) → DVal
deriving DecidableEq

/-- The decoded JSON body of a response: a generic mapping. -/
abbrev Dict := List (String × DVal)

/-- Python truthiness of a response value. -/
def dTruthy : DVal → Bool
  | .dScalar v => pyTruthy v
  | .dRecords rs => !rs.isEmpty
  | .dMeta m => !m.isEmpty

/-- Display of a response value inside an f-string. -/
def dStr : DVal → String
  | .dScalar v => pyStr v
  | .dRecords rs => recordsRepr rs
  | .dMeta m => "\x7b" ++ String.intercalate ", "
      (m.map (fun kv => "\x27" ++ kv.1 ++ "\x27: " ++ mStr kv.2)) ++ "\x7d"

/-- Iterating a response value as a list of row records (`for r in v` with
`r.get(...)` inside).  A value that is not a list of records makes the
Python loop raise, which downstream is modelled as `none`. -/
def asRecords : DVal → Option (List Record)
  | .dRecords rs => some rs
  | _ => none

/-- Reading the metadata `result` value as a mapping. -/
def asMeta : DVal → Option (List (String × MVal))
  | .dMeta m => some m
  | _ => none

/-- Reading a metadata value as the `columns` list of row records. -/
def asMRecords : MVal → Option (List Record)
  | .mRecords rs => some rs
  | _ => none

/-- The outcome of the single HTTP GET attempted by the request executor:
a 2xx response with a decoded JSON mapping, an `httpx.HTTPStatusError`
raised by `raise_for_status` (carrying status code and body text), an
`httpx.RequestError` (transport failure), or any other exception.  The
enclosing `except Exception` ladder of the source makes these the only
completed outcomes. -/
inductive HttpOutcome where
  | success : Dict → HttpOutcome
  | statusError : ℕ → String → HttpOutcome
  | requestError : String → HttpOutcome
  | otherError : String → HttpOutcome

/-- `make_api_request`: dispatch one GET and convert every failure into a
mapping with an `error` key (source lines 23-37). -/
def make_api_request : HttpOutcome → Option Dict
  | .success body => some body
  | .statusError code text =>
      some [("error", .dScalar (.vStr ("HTTP error " ++ toString code ++ ": " ++ text)))]
  | .requestError msg =>
      some [("error", .dScalar (.vStr ("Request failed: " ++ msg)))]
  | .otherError msg =>
      some [("error", .dScalar (.vStr ("Unexpected error: " ++ msg)))]

/-- Python slicing `l[:n]` for an `int` bound `n` (negative bounds count
from the end, clamped at zero). -/
def pySlice {α : Type} (l : List α) (n : ℤ) : List α :=
  if 0 ≤ n then l.take n.toNat
  else l.take ((l.length : ℤ) + n).toNat

/-- The loop body of `format_records`: one rendered record block, headed
`Record <1-based index>:` with one indented `key: value` line per field,
in the record's own key order (source lines 47-49). -/
def renderBlock (i : ℕ) (record : Record) : String :=
  record.foldl (fun acc kv => acc ++ "  " ++ kv.1 ++ ": " ++ pyStr kv.2 ++ "\n")
    ("Record " ++ toString (i + 1) ++ ":\n")

/-- `format_records` (source lines 40-56). -/
def format_records (records : List Record) (max_records : ℤ) : String :=
  if records.isEmpty then "No records found."
  else
    let formatted := (pySlice records max_records).enum.map (fun p => renderBlock p.1 p.2)
    let result := String.intercalate "\n" formatted
    if max_records < (records.length : ℤ) then
      result ++ "\n... and " ++ toString ((records.length : ℤ) - max_records) ++ " more records"
    else
      result

/-- A transmitted query-parameter value: an integer or a string. -/
inductive PVal where
  | pInt : ℤ → PVal
  | pStr : String → PVal
deriving DecidableEq

/-- The query parameters (an ordered mapping) built by `query_dataset`
(source lines 162-178): the limit capped at 100, then `offset` only when
positive, then each optional string argument only when truthy. -/
def query_dataset_params (limit offset : ℤ)
    (start end_ filter_ columns sort_ : Option String) : List (String × PVal) :=
  ("limit", PVal.pInt (min limit 100)) ::
    ((if 0 < offset then [("offset", PVal.pInt offset)] else []) ++
     (if pyTruthyOptStr start then [("start", PVal.pStr (start.getD ""))] else []) ++
     (if pyTruthyOptStr end_ then [("end", PVal.pStr (end_.getD ""))] else []) ++
     (if pyTruthyOptStr filter_ then [("filter", PVal.pStr (filter_.getD ""))] else []) ++
     (if pyTruthyOptStr columns then [("columns", PVal.pStr (columns.getD ""))] else []) ++
     (if pyTruthyOptStr sort_ then [("sort", PVal.pStr (sort_.getD ""))] else []))

/-- The query parameters built by `get_electricity_prices` (source lines
219-229): limit capped at 100, a price-area filter built from the
`price_area` argument unconditionally, fixed sort and column list, then
`start`/`end` only when truthy. -/
def get_electricity_prices_params (price_area : String) (limit : ℤ)
    (start end_ : Option String) : List (String × PVal) :=
  ("limit", PVal.pInt (min limit 100)) ::
    ("filter", PVal.pStr ("\"PriceArea\" = \"" ++ price_area ++ "\"")) ::
    ("sort", PVal.pStr "HourUTC DESC") ::
    ("columns", PVal.pStr "HourUTC,HourDK,PriceArea,SpotPriceDKK,SpotPriceEUR") ::
    ((if pyTruthyOptStr start then [("start", PVal.pStr (start.getD ""))] else []) ++
     (if pyTruthyOptStr end_ then [("end", PVal.pStr (end_.getD ""))] else []))

/-- The query parameters built by `get_co2_emissions` (source lines
279-287). -/
def get_co2_emissions_params (limit : ℤ) (start end_ : Option String) :
    List (String × PVal) :=
  ("limit", PVal.pInt (min limit 100)) ::
    ("sort", PVal.pStr "Minutes5UTC DESC") ::
    ((if pyTruthyOptStr start then [("start", PVal.pStr (start.getD ""))] else []) ++
     (if pyTruthyOptStr end_ then [("end", PVal.pStr (end_.getD ""))] else []))

/-- The query parameters built by `get_production_consumption` (source
lines 335-345): the price-area filter only when `price_area` is truthy. -/
def get_production_consumption_params (price_area : Option String) (limit : ℤ)
    (start end_ : Option String) : List (String × PVal) :=
  ("limit", PVal.pInt (min limit 100)) ::
    ("sort", PVal.pStr "HourUTC DESC") ::
    ((if pyTruthyOptStr price_area then
        [("filter", PVal.pStr ("\"PriceArea\" = \"" ++ price_area.getD "" ++ "\""))]
      else []) ++
     (if pyTruthyOptStr start then [("start", PVal.pStr (start.getD ""))] else []) ++
     (if pyTruthyOptStr end_ then [("end", PVal.pStr (end_.getD ""))] else []))

/-- The body of `list_datasets` on a decoded response (source lines
76-90). -/
def list_datasets_body (data : Dict) : Option String :=
  match List.lookup "error" data with
  | some e => some ("Error: " ++ dStr e)
  | none =>
    let datasetsV := (List.lookup "result" data).getD (.dRecords [])
    if ¬ dTruthy datasetsV then some "No datasets found."
    else
      match asRecords datasetsV with
      | none => none
      | some datasets =>
        some ("Available datasets (" ++ toString datasets.length ++ " total):\n\n" ++
          String.intercalate "\n" (datasets.map (fun ds =>
            "- " ++ pyStr (pyGetD ds "name" (.vStr "Unknown")) ++ ": " ++
              pyStr (pyGetD ds "description" (.vStr "No description")))))

/-- The body of `get_dataset_metadata` on a decoded response (source
lines 106-131). -/
def get_dataset_metadata_body (dataset_name : String) (data : Dict) : Option String :=
  match List.lookup "error" data with
  | some e => some ("Error: " ++ dStr e)
  | none =>
    let resultV := (List.lookup "result" data).getD (.dMeta [])
    if ¬ dTruthy resultV then
      some ("No metadata found for dataset \x27" ++ dataset_name ++ "\x27.")
    else
      match asMeta resultV with
      | none => none
      | some result =>
        let descLines := match List.lookup "description" result with
          | some v => ["Description: " ++ mStr v]
          | none => []
        let countLines := match List.lookup "recordCount" result with
          | some v => ["Total Records: " ++ mStr v]
          | none => []
        let columnsV := (List.lookup "columns" result).getD (.mRecords [])
        let colLines : Option (List String) :=
          if ¬ mTruthy columnsV then some []
          else
            match asMRecords columnsV with
            | none => none
            | some columns =>
              some ("\nColumns:" :: columns.map (fun col =>
                "  - " ++ pyStr (pyGetD col "name" (.vStr "Unknown")) ++ " (" ++
                  pyStr (pyGetD col "type" (.vStr "Unknown")) ++ "): " ++
                  pyStr (pyGetD col "description" (.vStr "No description"))))
        match colLines with
        | none => none
        | some cls =>
          some (String.intercalate "\n"
            ((["Dataset: " ++ dataset_name] ++ descLines ++ countLines) ++ cls))

/-- The body of `query_dataset` on a decoded response (source lines
185-198): header lines, then the record formatter applied with the raw
(unclamped) `limit` argument as the cap. -/
def query_dataset_body (dataset_name : String) (limit : ℤ) (data : Dict) :
    Option String :=
  match List.lookup "error" data with
  | some e => some ("Error: " ++ dStr e)
  | none =>
    let total := (List.lookup "total" data).getD (.dScalar (.vNum PyNum.zero))
    match asRecords ((List.lookup "records" data).getD (.dRecords [])) with
    | none => none
    | some records =>
      some ("Dataset: " ++ dataset_name ++ "\n" ++
        "Total matching records: " ++ dStr total ++ "\n" ++
        "Records returned: " ++ toString records.length ++ "\n" ++
        "\n" ++ format_records records limit)

/-- One output line of `get_electricity_prices` (source lines 247-258):
present numeric prices are formatted to two decimals, anything else is
displayed as is (the missing-field default being the text `N/A`). -/
def price_line (record : Record) : String :=
  let priceDisplay := fun (key : String) =>
    match pyGetD record key (.vStr "N/A") with
    | .vNum q => formatFixed q 2
    | v => pyStr v
  pyStr (pyGetD record "HourDK" (pyGetD record "HourUTC" (.vStr "Unknown"))) ++ ": " ++
    priceDisplay "SpotPriceDKK" ++ " DKK/MWh (" ++ priceDisplay "SpotPriceEUR" ++ " EUR/MWh)"

/-- The body of `get_electricity_prices` on a decoded response (source
lines 236-260). -/
def get_electricity_prices_body (price_area : String) (data : Dict) : Option String :=
  match List.lookup "error" data with
  | some e => some ("Error: " ++ dStr e)
  | none =>
    let recordsV := (List.lookup "records" data).getD (.dRecords [])
    if ¬ dTruthy recordsV then
      some ("No electricity prices found for " ++ price_area ++ ".")
    else
      match asRecords recordsV with
      | none => none
      | some records =>
        some (String.intercalate "\n"
          (["Electricity Spot Prices for " ++ price_area,
            "(Prices in DKK/MWh and EUR/MWh)\n"] ++ records.map price_line))

/-- One output line of `get_co2_emissions` (source lines 304-312): a
present numeric emission is formatted to one decimal. -/
def co2_line (record : Record) : String :=
  let co2 := match pyGetD record "CO2Emission" (.vStr "N/A") with
    | .vNum q => formatFixed q 1
    | v => pyStr v
  pyStr (pyGetD record "Minutes5DK" (pyGetD record "Minutes5UTC" (.vStr "Unknown"))) ++
    " (" ++ pyStr (pyGetD record "PriceArea" (.vStr "Unknown")) ++ "): " ++ co2 ++ " g/kWh"

/-- The body of `get_co2_emissions` on a decoded response (source lines
294-314). -/
def get_co2_emissions_body (data : Dict) : Option String :=
  match List.lookup "error" data with
  | some e => some ("Error: " ++ dStr e)
  | none =>
    let recordsV := (List.lookup "records" data).getD (.dRecords [])
    if ¬ dTruthy recordsV then some "No CO2 emission data found."
    else
      match asRecords recordsV with
      | none => none
      | some records =>
        some (String.intercalate "\n"
          (["CO2 Emission Intensity (g CO2/kWh)\n"] ++ records.map co2_line))

/-- `record.get(key, 0) or 0` followed by numeric use (source lines
367-369): an absent or falsy field becomes zero; a present truthy
non-numeric value makes the later `+`/format raise, modelled as `none`. -/
def numericOrZero (record : Record) (key : String) : Option PyNum :=
  let v := pyGetD record key (.vNum PyNum.zero)
  match (if pyTruthy v then v else .vNum PyNum.zero) with
  | .vNum q => some q
  | _ => none

/-- The output lines for one record of `get_production_consumption`
(source lines 362-378): hour/area header, wind total (onshore plus
offshore, each shown to one decimal), solar to one decimal, gross
consumption displayed as is (`N/A` when absent), and a blank separator. -/
def prod_record_lines (record : Record) : Option (List String) :=
  let hour := pyGetD record "HourDK" (pyGetD record "HourUTC" (.vStr "Unknown"))
  let area := pyGetD record "PriceArea" (.vStr "Unknown")
  match numericOrZero record "OnshoreWindPower",
        numericOrZero record "OffshoreWindPower",
        numericOrZero record "SolarPower" with
  | some onshore_wind, some offshore_wind, some solar =>
    let total_wind := onshore_wind.add offshore_wind
    let gross_consumption := pyGetD record "GrossConsumption" (.vStr "N/A")
    some [pyStr hour ++ " (" ++ pyStr area ++ "):",
          "  Wind: " ++ formatFixed total_wind 1 ++ " MWh (Onshore: " ++
            formatFixed onshore_wind 1 ++ ", Offshore: " ++ formatFixed offshore_wind 1 ++ ")",
          "  Solar: " ++ formatFixed solar 1 ++ " MWh",
          "  Gross Consumption: " ++ pyStr gross_consumption,
          ""]
  | _, _, _ => none

/-- The body of `get_production_consumption` on a decoded response
(source lines 352-380). -/
def get_production_consumption_body (data : Dict) : Option String :=
  match List.lookup "error" data with
  | some e => some ("Error: " ++ dStr e)
  | none =>
    let recordsV := (List.lookup "records" data).getD (.dRecords [])
    if ¬ dTruthy recordsV then some "No production/consumption data found."
    else
      match asRecords recordsV with
      | none => none
      | some records =>
        match records.mapM prod_record_lines with
        | none => none
        | some blocks =>
          some (String.intercalate "\n"
            ("Electricity Production and Consumption (MWh)\n" :: blocks.flatten))

/-- `list_datasets` after the request: the `data is None` guard (source
lines 73-74) followed by the body. -/
def list_datasets_render (data : Option Dict) : Option String :=
  match data with
  | none => some "Unable to fetch dataset list from Energinet Data Service."
  | some d => list_datasets_body d

/-- `get_dataset_metadata` after the request (source lines 103-104). -/
def get_dataset_metadata_render (dataset_name : String) (data : Option Dict) :
    Option String :=
  match data with
  | none => some ("Unable to fetch metadata for dataset \x27" ++ dataset_name ++ "\x27.")
  | some d => get_dataset_metadata_body dataset_name d

/-- `query_dataset` after the request (source lines 182-183). -/
def query_dataset_render (dataset_name : String) (limit : ℤ) (data : Option Dict) :
    Option String :=
  match data with
  | none => some ("Unable to query dataset \x27" ++ dataset_name ++ "\x27.")
  | some d => query_dataset_body dataset_name limit d

/-- `get_electricity_prices` after the request (source lines 233-234). -/
def get_electricity_prices_render (price_area : String) (data : Option Dict) :
    Option String :=
  match data with
  | none => some ("Unable to fetch electricity prices for " ++ price_area ++ ".")
  | some d => get_electricity_prices_body price_area d

/-- `get_co2_emissions` after the request (source lines 291-292). -/
def get_co2_emissions_render (data : Option Dict) : Option String :=
  match data with
  | none => some "Unable to fetch CO2 emission data."
  | some d => get_co2_emissions_body d

/-- `get_production_consumption` after the request (source lines
349-350). -/
def get_production_consumption_render (data : Option Dict) : Option String :=
  match data with
  | none => some "Unable to fetch production/consumption data."
  | some d => get_production_consumption_body d

/-- The IEEE-754 double nearest the Python literal `100.005`
(`(100.005).as_integer_ratio()`), slightly below `100.005`. -/
def double100005 : PyNum := ⟨879653282685911, 8796093022208⟩

/-- The IEEE-754 double nearest the Python literal `13.4`
(`(13.4).as_integer_ratio()`), slightly above `13.4`. -/
def double134 : PyNum := ⟨7543529375845581, 562949953421312⟩

/-- The IEEE-754 double nearest the Python literal `123.45`
(`(123.45).as_integer_ratio()`), slightly above `123.45`. -/
def double12345 : PyNum := ⟨8687021468732621, 70368744177664⟩

/-! Helper lemmas. -/

theorem PyNum.add_zero (q : PyNum) : q.add PyNum.zero = q := by
  cases q with
  | mk n d => simp [PyNum.add, PyNum.zero]

theorem numericOrZero_of_absent (record : Record) (key : String)
    (h : List.lookup key record = none) :
    numericOrZero record key = some PyNum.zero := by
  simp [numericOrZero, pyGetD, h, pyTruthy, PyNum.zero]

theorem mem_keys_ite_single (name k : String) (c : Prop) [Decidable c] (v : PVal) :
    (name ∈ (if c then [(k, v)] else []).map Prod.fst) ↔ (c ∧ name = k) := by
  split <;> simp_all

/-- C8: `format_records` applied to an empty record sequence returns
exactly the fixed no-records message `"No records found."`, regardless of
the cap argument. -/
theorem format_records_empty_fixed_message :
    ∀ max_records : ℤ, format_records [] max_records = "No records found." :=
  fun _ => rfl

/-- C5: the request executor is total over its outcomes: a non-2xx status
yields an error value carrying the numeric status code and the raw body
text, a transport failure yields an error value carrying the failure
description, any other failure yields an error value with a generic
description, and no outcome produces an unhandled result (`isSome` holds
for every outcome). -/
theorem make_api_request_outcome_totality :
    (∀ body : Dict, make_api_request (.success body) = some body) ∧
    (∀ (code : ℕ) (text : String), make_api_request (.statusError code text) =
      some [("error", .dScalar (.vStr ("HTTP error " ++ toString code ++ ": " ++ text)))]) ∧
    (∀ msg : String, make_api_request (.requestError msg) =
      some [("error", .dScalar (.vStr ("Request failed: " ++ msg)))]) ∧
    (∀ msg : String, make_api_request (.otherError msg) =
      some [("error", .dScalar (.vStr ("Unexpected error: " ++ msg)))]) ∧
    (∀ o : HttpOutcome, (make_api_request o).isSome = true) :=
  ⟨fun _ => rfl, fun _ _ => rfl, fun _ => rfl, fun _ => rfl, fun o => by cases o <;> rfl⟩

/-- C9: `make_api_request` never returns `none`: every outcome yields
some mapping, so in each of the six tools the `data is None` branch is
unreachable and the tool's result is the body applied to that mapping. -/
theorem make_api_request_never_none :
    ∀ o : HttpOutcome, ∃ d : Dict, make_api_request o = some d ∧
      list_datasets_render (make_api_request o) = list_datasets_body d ∧
      (∀ name : String, get_dataset_metadata_render name (make_api_request o) =
        get_dataset_metadata_body name d) ∧
      (∀ (name : String) (limit : ℤ), query_dataset_render name limit (make_api_request o) =
        query_dataset_body name limit d) ∧
      (∀ area : String, get_electricity_prices_render area (make_api_request o) =
        get_electricity_prices_body area d) ∧
      get_co2_emissions_render (make_api_request o) = get_co2_emissions_body d ∧
      get_production_consumption_render (make_api_request o) =
        get_production_consumption_body d := by
  intro o
  cases o <;> exact ⟨_, rfl, rfl, fun _ => rfl, fun _ _ => rfl, fun _ => rfl, rfl, rfl⟩

/-- C4: when the request executor returns the mapping with `error` bound
to `boom`, every one of the six tools returns text beginning with
`Error: boom` (prefix stated on the underlying character lists). -/
theorem tools_error_prefix :
    (∃ s, list_datasets_render (some [("error", DVal.dScalar (PyVal.vStr "boom"))]) =
      some s ∧ "Error: boom".data <+: s.data) ∧
    (∃ s, get_dataset_metadata_render "Elspotprices"
        (some [("error", DVal.dScalar (PyVal.vStr "boom"))]) =
      some s ∧ "Error: boom".data <+: s.data) ∧
    (∃ s, query_dataset_render "Elspotprices" 10
        (some [("error", DVal.dScalar (PyVal.vStr "boom"))]) =
      some s ∧ "Error: boom".data <+: s.data) ∧
    (∃ s, get_electricity_prices_render "DK1"
        (some [("error", DVal.dScalar (PyVal.vStr "boom"))]) =
      some s ∧ "Error: boom".data <+: s.data) ∧
    (∃ s, get_co2_emissions_render (some [("error", DVal.dScalar (PyVal.vStr "boom"))]) =
      some s ∧ "Error: boom".data <+: s.data) ∧
    (∃ s, get_production_consumption_render
        (some [("error", DVal.dScalar (PyVal.vStr "boom"))]) =
      some s ∧ "Error: boom".data <+: s.data) :=
  ⟨⟨"Error: boom", by decide, by decide⟩, ⟨"Error: boom", by decide, by decide⟩,
   ⟨"Error: boom", by decide, by decide⟩, ⟨"Error: boom", by decide, by decide⟩,
   ⟨"Error: boom", by decide, by decide⟩, ⟨"Error: boom", by decide, by decide⟩⟩

/-- C1 (counterexample): with the integer limit argument `0`, the value
transmitted under the `limit` key is `0`, which does not lie in the
inclusive range `[1,100]`: the code only caps the limit from above. -/
theorem limit_zero_transmitted_outside_range :
    List.lookup "limit" (query_dataset_params 0 0 none none none none none) =
      some (PVal.pInt 0) ∧ ¬ (1 ≤ (0 : ℤ)) :=
  ⟨by decide, by decide⟩

/-- C1 (amended): for every tool that transmits a limit parameter and
every integer limit argument, the transmitted value equals
`min limit 100`: it is always at most 100; an argument below 1 is
transmitted unchanged (hence outside `[1,100]`); and the transmitted
value lies in the inclusive range `[1,100]` exactly when the argument is
at least 1. -/
theorem limit_clamped_above_at_100 (limit offset : ℤ) (area : String)
    (pa s1 e1 f1 c1 so1 s2 e2 s3 e3 s4 e4 : Option String) :
    List.lookup "limit" (query_dataset_params limit offset s1 e1 f1 c1 so1) =
      some (PVal.pInt (min limit 100)) ∧
    List.lookup "limit" (get_electricity_prices_params area limit s2 e2) =
      some (PVal.pInt (min limit 100)) ∧
    List.lookup "limit" (get_co2_emissions_params limit s3 e3) =
      some (PVal.pInt (min limit 100)) ∧
    List.lookup "limit" (get_production_consumption_params pa limit s4 e4) =
      some (PVal.pInt (min limit 100)) ∧
    min limit 100 ≤ 100 ∧
    (limit < 1 → min limit 100 = limit) ∧
    (1 ≤ limit ↔ 1 ≤ min limit 100 ∧ min limit 100 ≤ 100) :=
  ⟨by simp [query_dataset_params, List.lookup],
   by simp [get_electricity_prices_params, List.lookup],
   by simp [get_co2_emissions_params, List.lookup],
   by simp [get_production_consumption_params, List.lookup],
   min_le_right _ _,
   fun h => min_eq_left (by omega),
   ⟨fun h => ⟨le_min h (by norm_num), min_le_right _ _⟩, fun h => by omega⟩⟩

/-- C1 (witness): the amended clamp theorem applied at limit 0 (below 1,
transmitted unchanged) and at limit 250 (clamped into range). -/
theorem limit_clamped_above_at_100_witness :
    (List.lookup "limit" (query_dataset_params 0 0 none none none none none) =
      some (PVal.pInt (min 0 100)) ∧ min (0 : ℤ) 100 = 0) ∧
    (List.lookup "limit" (get_production_consumption_params none 250 none none) =
      some (PVal.pInt (min 250 100)) ∧
      1 ≤ min (250 : ℤ) 100 ∧ min (250 : ℤ) 100 ≤ 100) :=
  ⟨⟨(limit_clamped_above_at_100 0 0 "DK1" none none none none none none
      none none none none none none).1,
    (limit_clamped_above_at_100 0 0 "DK1" none none none none none none
      none none none none none none).2.2.2.2.2.1 (by decide)⟩,
   ⟨(limit_clamped_above_at_100 250 0 "DK1" none none none none none none
      none none none none none none).2.2.2.1,
    (limit_clamped_above_at_100 250 0 "DK1" none none none none none none
      none none none none none none).2.2.2.2.2.2.mp (by decide)⟩⟩

/-- C7: in `query_dataset`, a limit argument greater than 100 is
transmitted as exactly 100, and a limit argument in `[1,100]` is
transmitted unchanged. -/
theorem query_dataset_limit_clamp (limit offset : ℤ)
    (start end_ filter_ columns sort_ : Option String) :
    (100 < limit →
      List.lookup "limit" (query_dataset_params limit offset start end_ filter_ columns sort_) =
        some (PVal.pInt 100)) ∧
    (1 ≤ limit → limit ≤ 100 →
      List.lookup "limit" (query_dataset_params limit offset start end_ filter_ columns sort_) =
        some (PVal.pInt limit)) := by
  have hl : List.lookup "limit"
      (query_dataset_params limit offset start end_ filter_ columns sort_) =
      some (PVal.pInt (min limit 100)) := by
    simp [query_dataset_params, List.lookup]
  exact ⟨fun h => by rw [hl, min_eq_right h.le],
         fun h1 h2 => by rw [hl, min_eq_left h2]⟩

/-- C7 (witness): the clamp theorem applied at limits 150 and 42. -/
theorem query_dataset_limit_clamp_witness :
    List.lookup "limit" (query_dataset_params 150 0 none none none none none) =
      some (PVal.pInt 100) ∧
    List.lookup "limit" (query_dataset_params 42 0 none none none none none) =
      some (PVal.pInt 42) :=
  ⟨(query_dataset_limit_clamp 150 0 none none none none none).1 (by decide),
   (query_dataset_limit_clamp 42 0 none none none none none).2 (by decide) (by decide)⟩

/-- C10 (counterexample): in `get_electricity_prices` an empty-string
`price_area` is not treated as if the argument were absent: it is
embedded into the transmitted `filter` parameter, which therefore differs
from the parameters built with the default area `DK1`. -/
theorem empty_price_area_not_treated_as_absent :
    get_electricity_prices_params "" 24 none none ≠
      get_electricity_prices_params "DK1" 24 none none ∧
    List.lookup "filter" (get_electricity_prices_params "" 24 none none) =
      some (PVal.pStr "\"PriceArea\" = \"\"") :=
  ⟨by decide, by decide⟩

/-- C10 (amended): every optional string argument given as the empty
string is omitted exactly as if it were absent (start, end, filter,
columns and sort in `query_dataset`; start and end in
`get_electricity_prices` and `get_co2_emissions`; price_area, start and
end in `get_production_consumption`); `offset` is transmitted if and only
if it is positive; but in `get_electricity_prices` the `price_area`
argument is always embedded into the transmitted filter parameter. -/
theorem falsy_optional_args_omitted (limit offset : ℤ) (area : String)
    (pa st en fi co so : Option String) :
    query_dataset_params limit offset (some "") en fi co so =
      query_dataset_params limit offset none en fi co so ∧
    query_dataset_params limit offset st (some "") fi co so =
      query_dataset_params limit offset st none fi co so ∧
    query_dataset_params limit offset st en (some "") co so =
      query_dataset_params limit offset st en none co so ∧
    query_dataset_params limit offset st en fi (some "") so =
      query_dataset_params limit offset st en fi none so ∧
    query_dataset_params limit offset st en fi co (some "") =
      query_dataset_params limit offset st en fi co none ∧
    get_electricity_prices_params area limit (some "") en =
      get_electricity_prices_params area limit none en ∧
    get_electricity_prices_params area limit st (some "") =
      get_electricity_prices_params area limit st none ∧
    get_co2_emissions_params limit (some "") en =
      get_co2_emissions_params limit none en ∧
    get_co2_emissions_params limit st (some "") =
      get_co2_emissions_params limit st none ∧
    get_production_consumption_params (some "") limit st en =
      get_production_consumption_params none limit st en ∧
    get_production_consumption_params pa limit (some "") en =
      get_production_consumption_params pa limit none en ∧
    get_production_consumption_params pa limit st (some "") =
      get_production_consumption_params pa limit st none ∧
    (("offset" ∈ (query_dataset_params limit offset st en fi co so).map Prod.fst) ↔
      0 < offset) ∧
    List.lookup "filter" (get_electricity_prices_params area limit st en) =
      some (PVal.pStr ("\"PriceArea\" = \"" ++ area ++ "\"")) := by
  refine ⟨rfl, rfl, rfl, rfl, rfl, rfl, rfl, rfl, rfl, rfl, rfl, rfl, ?_, ?_⟩
  · simp [query_dataset_params, mem_keys_ite_single]
  · simp [get_electricity_prices_params, List.lookup]

/-- C3 (counterexample): at the cap `-1` (Python slice semantics drop the
last record) a three-record input renders two blocks, so no block list of
length `min 3 (-1)` can describe the output, although the omission line
is produced with the count `3 - (-1) = 4`. -/
theorem format_records_negative_cap_counterexample :
    format_records [[("a", PyVal.vStr "1")], [("b", PyVal.vStr "2")], [("c", PyVal.vStr "3")]]
      (-1) = "Record 1:\n  a: 1\n\nRecord 2:\n  b: 2\n\n... and 4 more records" ∧
    ¬ ∃ blocks : List String,
        (blocks.length : ℤ) =
          min (([[("a", PyVal.vStr "1")], [("b", PyVal.vStr "2")], [("c", PyVal.vStr "3")]] :
            List Record).length : ℤ) (-1) := by
  refine ⟨by decide, ?_⟩
  rintro ⟨blocks, hlen⟩
  simp at hlen

/-- C3 (amended): for every nonempty record sequence of length `L` and
every cap `C ≥ 0`, `format_records` renders exactly `min L C` blocks
(the `i`-th being `renderBlock i` of the `i`-th record), and appends the
omission-summary line exactly when `L > C`, stating `L - C` omitted
records. -/
theorem format_records_block_structure (records : List Record) (C : ℕ)
    (h : records ≠ []) :
    ∃ blocks : List String,
      blocks = (records.take C).enum.map (fun p => renderBlock p.1 p.2) ∧
      blocks.length = min records.length C ∧
      (C < records.length →
        format_records records (C : ℤ) =
          String.intercalate "\n" blocks ++ "\n... and " ++
            toString (records.length - C) ++ " more records") ∧
      (records.length ≤ C →
        format_records records (C : ℤ) = String.intercalate "\n" blocks) := by
  have hiE : records.isEmpty = false := by
    cases records with
    | nil => exact absurd rfl h
    | cons a l => rfl
  have hslice : pySlice records (C : ℤ) = records.take C := by
    simp [pySlice]
  refine ⟨_, rfl, ?_, ?_, ?_⟩
  · rw [List.length_map, List.enum_length, List.length_take, Nat.min_comm]
  · intro hlt
    have hlt' : (C : ℤ) < (records.length : ℤ) := by exact_mod_cast hlt
    have hsub : (records.length : ℤ) - (C : ℤ) = ((records.length - C : ℕ) : ℤ) := by
      omega
    have hts : toString ((records.length - C : ℕ) : ℤ) = toString (records.length - C) := rfl
    simp only [format_records, hiE, Bool.false_eq_true, if_false, hslice,
      if_pos hlt', hsub, hts]
  · intro hle
    have hle' : ¬ ((C : ℤ) < (records.length : ℤ)) := by exact_mod_cast not_lt.mpr hle
    simp only [format_records, hiE, Bool.false_eq_true, if_false, hslice, if_neg hle']

/-- C3 (witness): the block-structure theorem applied to a two-record
sequence with cap 1. -/
theorem format_records_block_structure_witness :
    (([[("a", PyVal.vStr "1")], [("b", PyVal.vStr "2")]] : List Record) ≠ []) ∧
    (∃ blocks : List String,
      blocks = (([[("a", PyVal.vStr "1")], [("b", PyVal.vStr "2")]] :
          List Record).take 1).enum.map (fun p => renderBlock p.1 p.2) ∧
      blocks.length = min ([[("a", PyVal.vStr "1")], [("b", PyVal.vStr "2")]] :
          List Record).length 1 ∧
      (1 < ([[("a", PyVal.vStr "1")], [("b", PyVal.vStr "2")]] : List Record).length →
        format_records [[("a", PyVal.vStr "1")], [("b", PyVal.vStr "2")]] ((1 : ℕ) : ℤ) =
          String.intercalate "\n" blocks ++ "\n... and " ++
            toString (([[("a", PyVal.vStr "1")], [("b", PyVal.vStr "2")]] :
              List Record).length - 1) ++ " more records") ∧
      (([[("a", PyVal.vStr "1")], [("b", PyVal.vStr "2")]] : List Record).length ≤ 1 →
        format_records [[("a", PyVal.vStr "1")], [("b", PyVal.vStr "2")]] ((1 : ℕ) : ℤ) =
          String.intercalate "\n" blocks)) :=
  ⟨by decide, format_records_block_structure
    [[("a", PyVal.vStr "1")], [("b", PyVal.vStr "2")]] 1 (by decide)⟩

/-- C2 (counterexample): a record lacking `SolarPower` renders the solar
line as `  Solar: 0.0 MWh`, not as the placeholder `N/A`: the code
defaults the solar value to zero before formatting it to one decimal, so
the rendered output contains no `N/A` in the solar line. -/
theorem missing_solar_renders_zero_not_na :
    prod_record_lines [("OnshoreWindPower", PyVal.vNum (PyNum.int 5))] =
      some ["Unknown (Unknown):",
            "  Wind: 5.0 MWh (Onshore: 5.0, Offshore: 0.0)",
            "  Solar: 0.0 MWh",
            "  Gross Consumption: N/A",
            ""] ∧
    ¬ ("N/A".data <:+: "  Solar: 0.0 MWh".data) :=
  ⟨by decide, by decide⟩

/-- C2 (amended): in `get_production_consumption`, absent wind components
and an absent `SolarPower` are treated as zero (the solar line rendering
`0.0`, not `N/A`), only an absent `GrossConsumption` renders the literal
placeholder `N/A`, and a record lacking `OffshoreWindPower` yields a wind
total equal to the onshore value alone with no failure. -/
theorem prod_missing_fields_zero_and_na (record : Record) (q : PyNum)
    (hOn : numericOrZero record "OnshoreWindPower" = some q)
    (hOff : List.lookup "OffshoreWindPower" record = none)
    (hSol : List.lookup "SolarPower" record = none)
    (hGro : List.lookup "GrossConsumption" record = none) :
    prod_record_lines record = some
      [pyStr (pyGetD record "HourDK" (pyGetD record "HourUTC" (.vStr "Unknown"))) ++ " (" ++
         pyStr (pyGetD record "PriceArea" (.vStr "Unknown")) ++ "):",
       "  Wind: " ++ formatFixed q 1 ++ " MWh (Onshore: " ++ formatFixed q 1 ++
         ", Offshore: " ++ "0.0" ++ ")",
       "  Solar: " ++ "0.0" ++ " MWh",
       "  Gross Consumption: " ++ "N/A",
       ""] := by
  have hOff0 : numericOrZero record "OffshoreWindPower" = some PyNum.zero :=
    numericOrZero_of_absent record "OffshoreWindPower" hOff
  have hSol0 : numericOrZero record "SolarPower" = some PyNum.zero :=
    numericOrZero_of_absent record "SolarPower" hSol
  have hz : formatFixed PyNum.zero 1 = "0.0" := by decide
  have hgr : pyGetD record "GrossConsumption" (.vStr "N/A") = .vStr "N/A" := by
    simp [pyGetD, hGro]
  simp only [prod_record_lines, hOn, hOff0, hSol0, PyNum.add_zero, hz, hgr, pyStr]

/-- C2 (witness): the amended theorem applied to a concrete record with
onshore wind `13.5` and no offshore, solar or consumption fields. -/
theorem prod_missing_fields_zero_and_na_witness :
    (numericOrZero [("HourDK", PyVal.vStr "2024-07-01 13:00"),
        ("PriceArea", PyVal.vStr "DK1"), ("OnshoreWindPower", PyVal.vNum ⟨27, 2⟩)]
        "OnshoreWindPower" = some (⟨27, 2⟩ : PyNum)) ∧
    (List.lookup "OffshoreWindPower" [("HourDK", PyVal.vStr "2024-07-01 13:00"),
        ("PriceArea", PyVal.vStr "DK1"), ("OnshoreWindPower", PyVal.vNum ⟨27, 2⟩)] =
      (none : Option PyVal)) ∧
    prod_record_lines [("HourDK", PyVal.vStr "2024-07-01 13:00"),
        ("PriceArea", PyVal.vStr "DK1"), ("OnshoreWindPower", PyVal.vNum ⟨27, 2⟩)] =
      some ["2024-07-01 13:00 (DK1):",
            "  Wind: 13.5 MWh (Onshore: 13.5, Offshore: 0.0)",
            "  Solar: 0.0 MWh",
            "  Gross Consumption: N/A",
            ""] :=
  ⟨by decide, by decide,
   (prod_missing_fields_zero_and_na
      [("HourDK", PyVal.vStr "2024-07-01 13:00"), ("PriceArea", PyVal.vStr "DK1"),
       ("OnshoreWindPower", PyVal.vNum ⟨27, 2⟩)] ⟨27, 2⟩
      (by decide) (by decide) (by decide) (by decide)).trans (by decide)⟩

/-- The mocked `Elspotprices` response of the spec: two records with
`HourDK`, `SpotPriceDKK = 100.005` and `SpotPriceEUR = 13.4` (the float
literals embedded as their exact double values). -/
def mockPriceResponse : Dict :=
  [("records", .dRecords
    [[("HourDK", .vStr "2024-01-01 00:00"),
      ("SpotPriceDKK", .vNum double100005), ("SpotPriceEUR", .vNum double134)],
     [("HourDK", .vStr "2024-01-01 01:00"),
      ("SpotPriceDKK", .vNum double100005), ("SpotPriceEUR", .vNum double134)]])]

/-- The rendered output of `get_electricity_prices` on
`mockPriceResponse`. -/
def mockPriceOutput : String :=
  "Electricity Spot Prices for DK1\n(Prices in DKK/MWh and EUR/MWh)\n\n" ++
  "2024-01-01 00:00: 100.00 DKK/MWh (13.40 EUR/MWh)\n" ++
  "2024-01-01 01:00: 100.00 DKK/MWh (13.40 EUR/MWh)"

/-- The mocked `CO2Emis` response of the spec: one record with
`CO2Emission = 123.45` (embedded as its exact double value). -/
def mockCo2Response : Dict :=
  [("records", .dRecords
    [[("Minutes5DK", .vStr "2024-01-01 00:00"), ("PriceArea", .vStr "DK1"),
      ("CO2Emission", .vNum double12345)]])]

/-- C6 (counterexample): on the spec's mocked response the price lines
render `100.00 DKK/MWh (13.40 EUR/MWh)`, never the claimed fragment
`100.01 DKK/MWh (13.40 EUR/MWh)`: the IEEE-754 double nearest `100.005`
is slightly below it, so 2-decimal rounding yields `100.00`. -/
theorem price_100005_renders_100_00 :
    get_electricity_prices_body "DK1" mockPriceResponse = some mockPriceOutput ∧
    ¬ ("100.01 DKK/MWh (13.40 EUR/MWh)".data <:+: mockPriceOutput.data) :=
  ⟨by decide, by decide⟩

/-- C6 (amended): `get_electricity_prices` renders each present numeric
price with 2-decimal correctly-rounded formatting, so the record with
`SpotPriceDKK = 100.005` and `SpotPriceEUR = 13.4` renders the line
fragment `100.00 DKK/MWh (13.40 EUR/MWh)` (the double nearest `100.005`
lies below the midpoint); and `get_co2_emissions` renders each present
numeric `CO2Emission` with 1-decimal rounding, so `123.45` renders
`123.5 g/kWh` as claimed. -/
theorem price_and_co2_rounding_amended :
    get_electricity_prices_body "DK1" mockPriceResponse = some mockPriceOutput ∧
    ("100.00 DKK/MWh (13.40 EUR/MWh)".data <:+: mockPriceOutput.data) ∧
    get_co2_emissions_body mockCo2Response =
      some "CO2 Emission Intensity (g CO2/kWh)\n\n2024-01-01 00:00 (DK1): 123.5 g/kWh" ∧
    ("123.5 g/kWh".data <:+:
      "CO2 Emission Intensity (g CO2/kWh)\n\n2024-01-01 00:00 (DK1): 123.5 g/kWh".data) :=
  ⟨by decide, by decide, by decide, by decide⟩

end Energinet
